import Mathlib

/-!
Shallow embedding of the dbnexus database access layer core
(connection-pool sessions with permission gating, config auto-correction,
schema diffing, SQL emission, and migration-file parsing), together with
theorems settling the specification claims about it.

Sources embedded: `src/dbnexus/src/permission/mod.rs`,
`src/dbnexus/src/pool.rs`, `src/dbnexus/src/config/mod.rs`,
`src/dbnexus/src/migration/mod.rs`.
-/

namespace DbNexus

/-- Closed enumeration of DML operations, from `permission/mod.rs`
(`enum Operation`; `pool.rs` names the same four variants `PermissionAction`). -/
inductive Operation where
  | Select
  | Insert
  | Update
  | Delete
deriving DecidableEq, Repr

/-- Canonical uppercase string form of an operation
(`impl Display for Operation` in `permission/mod.rs`). -/
def Operation.toDisplay : Operation → String
  | .Select => "SELECT"
  | .Insert => "INSERT"
  | .Update => "UPDATE"
  | .Delete => "DELETE"

/-- Table permission entry: a table name (wildcard `*` allowed) and the list of
allowed operations (`struct TablePermission` in `permission/mod.rs`). -/
structure TablePermission where
  name : String
  operations : List Operation
deriving DecidableEq, Repr

/-- Role policy: ordered list of table permissions
(`struct RolePolicy` in `permission/mod.rs`). -/
structure RolePolicy where
  tables : List TablePermission
deriving DecidableEq, Repr

/-- `RolePolicy::allows` from `permission/mod.rs`: scan the table permissions;
a permission grants access when its name is `*` or equals the table and the
operation is in its operations list. -/
def RolePolicy.allows (p : RolePolicy) (table : String) (op : Operation) : Bool :=
  p.tables.any fun perm =>
    (decide (perm.name = "*") || decide (perm.name = table))
      && perm.operations.any fun o => decide (o = op)

/-- Permission configuration: mapping from role name to policy
(`struct PermissionConfig` in `permission/mod.rs`).  The Rust `HashMap` is
modelled as an association list. -/
structure PermissionConfig where
  roles : List (String × RolePolicy)
deriving DecidableEq, Repr

/-- `PermissionConfig::default()`: the derived default has an empty role map. -/
def PermissionConfig.default : PermissionConfig := ⟨[]⟩

/-- `PermissionConfig::get_role_policy`: look a role up in the role map. -/
def PermissionConfig.get_role_policy (c : PermissionConfig) (role : String) :
    Option RolePolicy :=
  (c.roles.find? fun e => decide (e.1 = role)).map (·.2)

/-- Policy LRU cache contents, modelled as an association list from role name
to cached policy (the LRU recency bookkeeping and the capacity-256 eviction do
not affect lookup results and are not modelled). -/
abbrev PolicyCache := List (String × RolePolicy)

/-- Lookup in the policy cache (`LruCache::get` keyed by role name). -/
def cacheLookup (cache : PolicyCache) (role : String) : Option RolePolicy :=
  (cache.find? fun e => decide (e.1 = role)).map (·.2)

/-- `PermissionContext::check_table_access` from `permission/mod.rs`: if the
role's policy is cached, evaluate `allows`; on a cache miss return `false`
(fail closed).  The poisoned-mutex branch also returns `false`. -/
def check_table_access (cache : PolicyCache) (role table : String)
    (op : Operation) : Bool :=
  match cacheLookup cache role with
  | some policy => policy.allows table op
  | none => false

/-- Error taxonomy `DbError` from `config/mod.rs`.  The `Connection` payload
(a driver error) is modelled by its message string. -/
inductive DbError where
  | Connection (msg : String)
  | Config (msg : String)
  | Permission (msg : String)
  | Transaction (msg : String)
  | Migration (msg : String)
deriving DecidableEq, Repr

/-- `Session::check_permission` from `pool.rs`: wrap `check_table_access` in a
`Result`, with the permission-denied message built from role, operation and
table. -/
def Session.check_permission (cache : PolicyCache) (role table : String)
    (op : Operation) : Except DbError Unit :=
  if check_table_access cache role table op then
    .ok ()
  else
    .error (.Permission
      ("Role '" ++ role ++ "' does not have " ++ op.toDisplay
        ++ " permission on table '" ++ table ++ "'"))

/-! SQL-operation extraction (`Session::parse_sql_operation` in `pool.rs`).
The Rust code uppercases the statement after trimming leading whitespace and
then runs one of four regular expressions; the regex search is embedded as an
explicit leftmost-match scan over the character list. -/

/-- Whitespace class used by `str::trim_start` and the regex `\s`
(ASCII portion: space, tab, newline, carriage return, vertical tab, form
feed). -/
def rustSpace (c : Char) : Bool :=
  c = ' ' || c = '\t' || c = '\n' || c = '\r' || c.val = 0x0B || c.val = 0x0C

/-- Identifier start class `[a-zA-Z_]` of the table-name capture group. -/
def isIdentStartC (c : Char) : Bool :=
  (decide ('A' ≤ c) && decide (c ≤ 'Z'))
    || (decide ('a' ≤ c) && decide (c ≤ 'z'))
    || c = '_'

/-- Identifier continuation class `[a-zA-Z0-9_]` of the capture group. -/
def isIdentC (c : Char) : Bool :=
  isIdentStartC c || (decide ('0' ≤ c) && decide (c ≤ '9'))

/-- Test whether the first list is a prefix of the second, by characters. -/
def startsWithL : List Char → List Char → Bool
  | [], _ => true
  | _ :: _, [] => false
  | p :: ps, c :: cs => p = c && startsWithL ps cs

/-- Match, at the head of `s`, the pattern `kw` + `\s+` + identifier, and
return the identifier capture (the regex shapes `FROM\s+([a-zA-Z_][a-zA-Z0-9_]*)`,
`INTO\s+…`, `UPDATE\s+…` from `parse_sql_operation`). -/
def matchKwIdent (kw : List Char) (s : List Char) : Option (List Char) :=
  if startsWithL kw s then
    let rest := s.drop kw.length
    if (rest.takeWhile rustSpace).isEmpty then none
    else
      match rest.dropWhile rustSpace with
      | [] => none
      | c :: cs => if isIdentStartC c then some (c :: cs.takeWhile isIdentC) else none
  else none

/-- Leftmost regex search: try `matchKwIdent` at every position left to
right. -/
def searchKwIdent (kw : List Char) : List Char → Option (List Char)
  | [] => matchKwIdent kw []
  | c :: cs =>
    match matchKwIdent kw (c :: cs) with
    | some r => some r
    | none => searchKwIdent kw cs

/-- `Session::parse_sql_operation` from `pool.rs`: trim leading whitespace,
uppercase, dispatch on the leading verb, and capture the first table
identifier with the verb-specific regex; `None` when the shape is not
recognised. -/
def parse_sql_operation (sql : String) : Option (String × Operation) :=
  let up := (sql.data.dropWhile rustSpace).map Char.toUpper
  if startsWithL "SELECT".data up then
    (searchKwIdent "FROM".data up).map fun t => (⟨t⟩, Operation.Select)
  else if startsWithL "INSERT".data up then
    (searchKwIdent "INTO".data up).map fun t => (⟨t⟩, Operation.Insert)
  else if startsWithL "UPDATE".data up then
    (searchKwIdent "UPDATE".data up).map fun t => (⟨t⟩, Operation.Update)
  else if startsWithL "DELETE".data up then
    (searchKwIdent "FROM".data up).map fun t => (⟨t⟩, Operation.Delete)
  else
    none

/-- Observable outcome of `Session::execute`: the statements forwarded to the
driver via `execute_raw`, whether `mark_write` fired, and the returned result
(driver results abstracted to `Unit`). -/
structure ExecOutcome where
  forwarded : List String
  markedWrite : Bool
  result : Except DbError Unit
deriving Repr

/-- `Session::execute` from `pool.rs`: parse the statement; if unparseable,
reject with the `Unable to parse` permission error without executing;
otherwise check the permission on the parsed pair, mark writes, and forward
the statement to `execute_raw`. -/
def Session.execute (cache : PolicyCache) (role : String) (sql : String) :
    ExecOutcome :=
  match parse_sql_operation sql with
  | some (table_name, operation) =>
    match Session.check_permission cache role table_name operation with
    | .error e => ⟨[], false, .error e⟩
    | .ok _ =>
      let mw : Bool := match operation with
        | .Insert | .Update | .Delete => true
        | .Select => false
      ⟨[sql], mw, .ok ()⟩
  | none =>
    ⟨[], false, .error (.Permission
      "Unable to parse SQL statement for permission check")⟩

/-! Pool construction: permission-config loading and cache preloading
(`DbPool::load_permission_config` and `DbPool::with_config` in `pool.rs`). -/

/-- `DbPool::load_permission_config` from `pool.rs`: when a permissions path is
configured, try to read and YAML-parse the file; on a missing path, a read
failure or a parse failure, fall back to `PermissionConfig::default()`.
The filesystem read and the YAML parser are external effects, passed in as
oracles (`none` models the failing case). -/
def DbPool.load_permission_config (permissions_path : Option String)
    (readFile : String → Option String)
    (fromYaml : String → Option PermissionConfig) : PermissionConfig :=
  match permissions_path with
  | some path =>
    match readFile path with
    | some content =>
      match fromYaml content with
      | some perm_config => perm_config
      | none => PermissionConfig.default
    | none => PermissionConfig.default
  | none => PermissionConfig.default

/-- Cache preloading loop of `DbPool::with_config` in `pool.rs`: every
`(role, policy)` pair of the loaded permission config is put into the policy
cache. -/
def DbPool.preloadCache (config : PermissionConfig) : PolicyCache :=
  config.roles

/-! Transaction state machine of `Session` (`pool.rs`).  The live transaction
handle `Option<DatabaseTransaction>` is modelled as `Option Unit`; driver
begin/commit/rollback calls are modelled as succeeding and recorded in an
event trace. -/

/-- Driver-level transaction events issued by a session. -/
inductive TxEvent where
  | begin
  | commit
  | rollback
deriving DecidableEq, Repr

/-- Transaction-relevant session state: the optional live transaction handle
(`Session.transaction` field in `pool.rs`). -/
structure TxState where
  transaction : Option Unit
deriving DecidableEq, Repr

/-- `Session::is_in_transaction` from `pool.rs`. -/
def Session.is_in_transaction (st : TxState) : Bool :=
  st.transaction.isSome

/-- `Session::begin_transaction` from `pool.rs`: error when a transaction is
already live, otherwise begin one on the connection and store the handle. -/
def Session.begin_transaction (st : TxState) :
    TxState × List TxEvent × Except DbError Unit :=
  if st.transaction.isSome then
    (st, [], .error (.Transaction "Transaction already in progress"))
  else
    (⟨some ()⟩, [.begin], .ok ())

/-- `Session::commit` from `pool.rs`: take the live transaction handle, error
when there is none, otherwise commit it. -/
def Session.commit (st : TxState) :
    TxState × List TxEvent × Except DbError Unit :=
  match st.transaction with
  | none => (st, [], .error (.Transaction "No active transaction to commit"))
  | some _ => (⟨none⟩, [.commit], .ok ())

/-- `Session::rollback` from `pool.rs`: take the live transaction handle,
error when there is none, otherwise roll it back. -/
def Session.rollback (st : TxState) :
    TxState × List TxEvent × Except DbError Unit :=
  match st.transaction with
  | none => (st, [], .error (.Transaction "No active transaction to rollback"))
  | some _ => (⟨none⟩, [.rollback], .ok ())

/-- `Session::transaction` from `pool.rs`: refuse when a transaction is live;
otherwise begin, run the closure, commit on `Ok`, and on `Err(e)` roll back
and return `DbError::Transaction(format!("Transaction failed: {}", e))`.
The closure is modelled by its result; its error is the `Display` rendering
`e`.  No synchronous session API can discharge the stored transaction handle,
so the handle is still live when the closure returns. -/
def Session.transaction (st : TxState) (f : Unit → Except String α) :
    TxState × List TxEvent × Except DbError α :=
  if st.transaction.isSome then
    (st, [], .error (.Transaction "Transaction already in progress"))
  else
    match f () with
    | .ok res => (⟨none⟩, [.begin, .commit], .ok res)
    | .error e =>
      (⟨none⟩, [.begin, .rollback],
        .error (.Transaction ("Transaction failed: " ++ e)))

/-! Config corrector (`ConfigCorrector::auto_correct` in `config/mod.rs`). -/

/-- `DbConfig` from `config/mod.rs`; `max_connections`/`min_connections` are
`u32` and the timeouts `u64`, modelled as `Nat` (the corrector only compares
them and assigns constants, so no wrap-around arises). -/
structure DbConfig where
  url : String
  max_connections : Nat
  min_connections : Nat
  idle_timeout : Nat
  acquire_timeout : Nat
  permissions_path : Option String
deriving DecidableEq, Repr

/-- Substring test by characters (`str::contains` with a string pattern). -/
def containsSubL (needle : List Char) : List Char → Bool
  | [] => needle.isEmpty
  | c :: cs => startsWithL needle (c :: cs) || containsSubL needle cs

/-- Substring test on strings. -/
def containsSub (hay needle : String) : Bool :=
  containsSubL needle.data hay.data

/-- String prefix test by characters (`str::starts_with`). -/
def stringStartsWith (s p : String) : Bool :=
  startsWithL p.data s.data

/-- URL repair step of `ConfigCorrector::auto_correct`: for a `mysql`/`postgres`
URL that mentions `localhost` and carries no `?` or `;` parameter segment,
append `?connect_timeout=10`. -/
def correctUrl (url : String) : String :=
  if stringStartsWith url "mysql" || stringStartsWith url "postgres" then
    if containsSub url "localhost" && !containsSub url "?" && !containsSub url ";" then
      if stringStartsWith url "mysql://" then url ++ "?connect_timeout=10"
      else if stringStartsWith url "postgres://" then url ++ "?connect_timeout=10"
      else url
    else url
  else url

/-- `ConfigCorrector::auto_correct` from `config/mod.rs`, applied in source
order: set `min := max` when `min > max`; raise zero `min` to 1; raise zero
`max` to 10; clamp `acquire_timeout` into `[1000, 60000]` with zero mapped to
5000; clamp `idle_timeout` into `[30, 3600]` with zero mapped to 300; then
repair the URL. -/
def ConfigCorrector.auto_correct (config : DbConfig) : DbConfig :=
  let min1 :=
    if config.min_connections > config.max_connections then config.max_connections
    else config.min_connections
  let min2 := if min1 = 0 then 1 else min1
  let max1 := if config.max_connections = 0 then 10 else config.max_connections
  let acq :=
    if config.acquire_timeout = 0 then 5000
    else if config.acquire_timeout < 1000 then 1000
    else if config.acquire_timeout > 60000 then 60000
    else config.acquire_timeout
  let idl :=
    if config.idle_timeout = 0 then 300
    else if config.idle_timeout < 30 then 30
    else if config.idle_timeout > 3600 then 3600
    else config.idle_timeout
  { config with
      min_connections := min2
      max_connections := max1
      acquire_timeout := acq
      idle_timeout := idl
      url := correctUrl config.url }

/-! Schema model, differ, SQL emitter and migration-file parser
(`migration/mod.rs`). -/

/-- Database dialect (`enum DatabaseType` in `migration/mod.rs`). -/
inductive DatabaseType where
  | Postgres
  | MySQL
  | SQLite
deriving DecidableEq, Repr

/-- Alias for `String` usable inside the `ColumnType` namespace, where the
`ColumnType.String` constructor shadows the type name. -/
abbrev Str : Type := String

/-- Column data types (`enum ColumnType` in `migration/mod.rs`). -/
inductive ColumnType where
  | Integer
  | BigInteger
  | String (len : Option Nat)
  | Text
  | Boolean
  | Float
  | Double
  | Date
  | Time
  | DateTime
  | Timestamp
  | Json
  | Binary
  | Custom (name : Str)
deriving DecidableEq, Repr

/-- `ColumnType::to_sql` from `migration/mod.rs`: dialect-specific SQL type
name. -/
def ColumnType.to_sql (t : ColumnType) (db_type : DatabaseType) : Str :=
  match t with
  | .Integer => "INTEGER"
  | .BigInteger => "BIGINT"
  | .String none =>
    match db_type with
    | .MySQL => "VARCHAR(255)"
    | .Postgres => "VARCHAR(255)"
    | .SQLite => "TEXT"
  | .String (some len) =>
    match db_type with
    | .MySQL => "VARCHAR(" ++ toString len ++ ")"
    | .Postgres => "VARCHAR(" ++ toString len ++ ")"
    | .SQLite => "TEXT"
  | .Text => "TEXT"
  | .Boolean =>
    match db_type with
    | .MySQL => "BOOLEAN"
    | .Postgres => "BOOLEAN"
    | .SQLite => "INTEGER"
  | .Float => "FLOAT"
  | .Double => "DOUBLE PRECISION"
  | .Date => "DATE"
  | .Time => "TIME"
  | .DateTime =>
    match db_type with
    | .MySQL => "DATETIME"
    | .Postgres => "TIMESTAMP"
    | .SQLite => "TEXT"
  | .Timestamp => "TIMESTAMP"
  | .Json =>
    match db_type with
    | .MySQL => "JSON"
    | .Postgres => "JSONB"
    | .SQLite => "TEXT"
  | .Binary => "BLOB"
  | .Custom name => name

/-- Column definition (`struct Column` in `migration/mod.rs`). -/
structure Column where
  name : String
  column_type : ColumnType
  is_primary_key : Bool
  is_nullable : Bool
  has_default : Bool
  default_value : Option String
  is_auto_increment : Bool
  comment : Option String
deriving DecidableEq, Repr

/-- Index definition (`struct Index` in `migration/mod.rs`). -/
structure Index where
  name : String
  table_name : String
  columns : List String
  is_unique : Bool
  is_constraint : Bool
deriving DecidableEq, Repr

/-- Foreign-key action (`enum ForeignKeyAction` in `migration/mod.rs`). -/
inductive ForeignKeyAction where
  | Cascade
  | SetNull
  | SetDefault
  | Restrict
  | NoAction
deriving DecidableEq, Repr

/-- `impl Display for ForeignKeyAction`. -/
def ForeignKeyAction.toDisplay : ForeignKeyAction → String
  | .Cascade => "CASCADE"
  | .SetNull => "SET NULL"
  | .SetDefault => "SET DEFAULT"
  | .Restrict => "RESTRICT"
  | .NoAction => "NO ACTION"

/-- Foreign-key definition (`struct ForeignKey` in `migration/mod.rs`). -/
structure ForeignKey where
  name : String
  table_name : String
  column_name : String
  referenced_table_name : String
  referenced_column_name : String
  on_delete : Option ForeignKeyAction
  on_update : Option ForeignKeyAction
deriving DecidableEq, Repr

/-- Table definition (`struct Table` in `migration/mod.rs`). -/
structure Table where
  name : String
  columns : List Column
  primary_key_columns : List String
  indexes : List Index
  foreign_keys : List ForeignKey
  comment : Option String
deriving DecidableEq, Repr

/-- Schema: dialect plus tables (`struct Schema` in `migration/mod.rs`). -/
structure Schema where
  database_type : DatabaseType
  tables : List Table
deriving DecidableEq, Repr

/-- `Schema::has_table`: name-based membership. -/
def Schema.has_table (s : Schema) (name : String) : Bool :=
  s.tables.any fun t => decide (t.name = name)

/-- `Schema::get_table`: first table with the given name. -/
def Schema.get_table (s : Schema) (name : String) : Option Table :=
  s.tables.find? fun t => decide (t.name = name)

/-- Column change kinds (`enum ColumnChange` in `migration/mod.rs`). -/
inductive ColumnChange where
  | TypeChanged (column_name : String) (old_type new_type : ColumnType)
  | NullabilityChanged (column_name : String) (old_nullable new_nullable : Bool)
  | DefaultChanged (column_name : String) (old_default new_default : Option String)
deriving DecidableEq, Repr

/-- Table change kinds (`enum TableChange` in `migration/mod.rs`). -/
inductive TableChange where
  | CreateTable (table : Table)
  | DropTable (table_name : String)
  | AlterTable (table_name : String)
      (column_changes : List ColumnChange)
      (added_columns : List Column)
      (removed_columns : List String)
      (added_indexes : List Index)
      (removed_indexes : List String)
      (added_foreign_keys : List ForeignKey)
      (removed_foreign_keys : List String)
deriving DecidableEq, Repr

/-- Migration (`struct Migration` in `migration/mod.rs`); the optional cached
SQL and the creation timestamp are modelled with `Option` placeholders. -/
structure Migration where
  version : Nat
  description : String
  table_changes : List TableChange
  sql : Option String
  timestamp : Option Unit
deriving DecidableEq, Repr

/-- `Migration::new`: fresh migration with no changes and a now-timestamp. -/
def Migration.new (version : Nat) (description : String) : Migration :=
  ⟨version, description, [], none, some ()⟩

/-- `SchemaDiffer::detect_column_changes`: for each name-matched column pair,
one entry per differing attribute among type, nullability and default, in
that order. -/
def SchemaDiffer.detect_column_changes (old_table new_table : Table) :
    List ColumnChange :=
  new_table.columns.flatMap fun nc =>
    match old_table.columns.find? (fun c => decide (c.name = nc.name)) with
    | none => []
    | some oc =>
      (if oc.column_type ≠ nc.column_type then
        [ColumnChange.TypeChanged nc.name oc.column_type nc.column_type]
      else []) ++
      (if oc.is_nullable ≠ nc.is_nullable then
        [ColumnChange.NullabilityChanged nc.name oc.is_nullable nc.is_nullable]
      else []) ++
      (if oc.default_value ≠ nc.default_value then
        [ColumnChange.DefaultChanged nc.name oc.default_value nc.default_value]
      else [])

/-- `SchemaDiffer::detect_added_columns`: columns of the new table absent (by
name) from the old one. -/
def SchemaDiffer.detect_added_columns (old_table new_table : Table) :
    List Column :=
  new_table.columns.filter fun c =>
    !(old_table.columns.any fun oc => decide (oc.name = c.name))

/-- `SchemaDiffer::detect_removed_columns`: names of old columns absent from
the new table. -/
def SchemaDiffer.detect_removed_columns (old_table new_table : Table) :
    List String :=
  (old_table.columns.filter fun c =>
    !(new_table.columns.any fun nc => decide (nc.name = c.name))).map (·.name)

/-- `SchemaDiffer::detect_added_indexes` (matched by name). -/
def SchemaDiffer.detect_added_indexes (old_table new_table : Table) :
    List Index :=
  new_table.indexes.filter fun i =>
    !(old_table.indexes.any fun oi => decide (oi.name = i.name))

/-- `SchemaDiffer::detect_removed_indexes` (matched by name). -/
def SchemaDiffer.detect_removed_indexes (old_table new_table : Table) :
    List String :=
  (old_table.indexes.filter fun i =>
    !(new_table.indexes.any fun ni => decide (ni.name = i.name))).map (·.name)

/-- `SchemaDiffer::detect_added_foreign_keys` (matched by name). -/
def SchemaDiffer.detect_added_foreign_keys (old_table new_table : Table) :
    List ForeignKey :=
  new_table.foreign_keys.filter fun fk =>
    !(old_table.foreign_keys.any fun ofk => decide (ofk.name = fk.name))

/-- `SchemaDiffer::detect_removed_foreign_keys` (matched by name). -/
def SchemaDiffer.detect_removed_foreign_keys (old_table new_table : Table) :
    List String :=
  (old_table.foreign_keys.filter fun fk =>
    !(new_table.foreign_keys.any fun nfk => decide (nfk.name = fk.name))).map (·.name)

/-- Per-table `AlterTable` computation of `SchemaDiffer::diff`: an entry is
produced only when at least one of the seven change lists is non-empty. -/
def SchemaDiffer.alterFor (old_schema : Schema) (new_table : Table) :
    Option TableChange :=
  match old_schema.get_table new_table.name with
  | none => none
  | some old_table =>
    let column_changes := SchemaDiffer.detect_column_changes old_table new_table
    let added_columns := SchemaDiffer.detect_added_columns old_table new_table
    let removed_columns := SchemaDiffer.detect_removed_columns old_table new_table
    let added_indexes := SchemaDiffer.detect_added_indexes old_table new_table
    let removed_indexes := SchemaDiffer.detect_removed_indexes old_table new_table
    let added_foreign_keys := SchemaDiffer.detect_added_foreign_keys old_table new_table
    let removed_foreign_keys := SchemaDiffer.detect_removed_foreign_keys old_table new_table
    if !column_changes.isEmpty || !added_columns.isEmpty
        || !removed_columns.isEmpty || !added_indexes.isEmpty
        || !removed_indexes.isEmpty || !added_foreign_keys.isEmpty
        || !removed_foreign_keys.isEmpty then
      some (TableChange.AlterTable new_table.name column_changes added_columns
        removed_columns added_indexes removed_indexes added_foreign_keys
        removed_foreign_keys)
    else
      none

/-- `SchemaDiffer::diff` from `migration/mod.rs`: one migration (version 1,
description `Schema changes`) collecting `CreateTable` entries for tables only
in the new schema, `DropTable` entries for tables only in the old schema, and
`AlterTable` entries for changed common tables; the migration is emitted only
when it carries at least one change. -/
def SchemaDiffer.diff (old_schema new_schema : Schema) : List Migration :=
  let creates :=
    (new_schema.tables.filter fun t => !(old_schema.has_table t.name)).map
      TableChange.CreateTable
  let drops :=
    (old_schema.tables.filter fun t => !(new_schema.has_table t.name)).map
      fun t => TableChange.DropTable t.name
  let alters := new_schema.tables.filterMap (SchemaDiffer.alterFor old_schema)
  let changes := creates ++ drops ++ alters
  if changes.isEmpty then []
  else [{ Migration.new 1 "Schema changes" with table_changes := changes }]

/-- SQL generator (`struct SqlGenerator` in `migration/mod.rs`). -/
structure SqlGenerator where
  db_type : DatabaseType
deriving DecidableEq, Repr

/-- `SqlGenerator::generate_column_definition`: four-space indent, name, SQL
type; dialect-specific auto-increment syntax for auto-increment primary
columns (nothing for Postgres); `NOT NULL` for non-nullable columns; a
`DEFAULT` clause when a default value is set. -/
def SqlGenerator.generate_column_definition (g : SqlGenerator) (column : Column)
    (_pk_columns : List String) : String :=
  let def1 := "    " ++ column.name ++ " " ++ column.column_type.to_sql g.db_type
  let def2 :=
    if column.is_auto_increment && column.is_primary_key then
      match g.db_type with
      | .MySQL => def1 ++ " AUTO_INCREMENT"
      | .SQLite => def1 ++ " PRIMARY KEY AUTOINCREMENT"
      | .Postgres => def1
    else def1
  let def3 := if !column.is_nullable then def2 ++ " NOT NULL" else def2
  match column.default_value with
  | some default => def3 ++ " DEFAULT " ++ default
  | none => def3

/-- `SqlGenerator::generate_create_index_sql`. -/
def SqlGenerator.generate_create_index_sql (_g : SqlGenerator) (index : Index) :
    String :=
  let unique := if index.is_unique then "UNIQUE " else ""
  "CREATE " ++ unique ++ "INDEX " ++ index.name ++ " ON " ++ index.table_name
    ++ " (" ++ String.intercalate ", " index.columns ++ ")"

/-- `SqlGenerator::generate_add_foreign_key_sql`. -/
def SqlGenerator.generate_add_foreign_key_sql (_g : SqlGenerator)
    (fk : ForeignKey) : String :=
  let sql := "ALTER TABLE " ++ fk.table_name ++ " ADD CONSTRAINT " ++ fk.name
    ++ " FOREIGN KEY (" ++ fk.column_name ++ ") REFERENCES "
    ++ fk.referenced_table_name ++ "(" ++ fk.referenced_column_name ++ ")"
  let sql := match fk.on_delete with
    | some a => sql ++ " ON DELETE " ++ a.toDisplay
    | none => sql
  let sql := match fk.on_update with
    | some a => sql ++ " ON UPDATE " ++ a.toDisplay
    | none => sql
  sql ++ ";"

/-- `SqlGenerator::generate_create_table_sql`: the column definitions joined
by `,\n`, a table-level `PRIMARY KEY (…)` clause when primary-key columns are
declared, then `CREATE INDEX` statements for non-constraint indexes and
`ALTER TABLE … ADD CONSTRAINT` statements for foreign keys. -/
def SqlGenerator.generate_create_table_sql (g : SqlGenerator) (table : Table) :
    String :=
  let column_defs := table.columns.map
    (fun col => g.generate_column_definition col table.primary_key_columns)
  let sql := "CREATE TABLE " ++ table.name ++ " (\n"
    ++ String.intercalate ",\n" column_defs
  let sql :=
    if !table.primary_key_columns.isEmpty then
      sql ++ ",\n" ++ "    PRIMARY KEY ("
        ++ String.intercalate ", " table.primary_key_columns ++ ")"
    else sql
  let sql := sql ++ "\n);"
  let sql := (table.indexes.filter (fun i => !i.is_constraint)).foldl
    (fun s i => s ++ "\n\n" ++ g.generate_create_index_sql i) sql
  table.foreign_keys.foldl
    (fun s fk => s ++ "\n\n" ++ g.generate_add_foreign_key_sql fk) sql

/-! Migration file parser (`MigrationFileParser` in `migration/mod.rs`). -/

/-- Split a character list at every `\n` (the split pieces do not contain the
separator; an empty input yields one empty piece, as `str::split` does). -/
def splitNlL : List Char → List (List Char)
  | [] => [[]]
  | c :: cs =>
    if c = '\n' then [] :: splitNlL cs
    else
      match splitNlL cs with
      | [] => [[c]]
      | l :: ls => (c :: l) :: ls

/-- `str::lines`: split on `\n`, dropping one trailing empty piece and a
trailing `\r` on each line. -/
def linesRust (content : String) : List String :=
  let parts := splitNlL content.data
  let parts := if parts.getLast? = some [] then parts.dropLast else parts
  parts.map fun l => ⟨if l.getLast? = some '\r' then l.dropLast else l⟩

/-- `str::trim`: strip whitespace from both ends. -/
def trimRust (s : String) : String :=
  ⟨((s.data.dropWhile rustSpace).reverse.dropWhile rustSpace).reverse⟩

/-- `MigrationFileParser::extract_description` from `migration/mod.rs`: walk
the leading comment lines; on a line starting with `-- Migration:` return the
line sliced from byte 12 (one byte short of the 13-byte marker, so the colon
is kept), trimmed; skip other comment lines; stop at the first non-comment
line; fall back to `Migration`. -/
def MigrationFileParser.extract_description (content : String) : String :=
  go (linesRust content)
where
  go : List String → String
  | [] => "Migration"
  | line :: rest =>
    let trimmed := trimRust line
    if stringStartsWith trimmed "-- Migration:" then
      trimRust ⟨trimmed.data.drop 12⟩
    else if stringStartsWith trimmed "/*" || stringStartsWith trimmed "--" then
      go rest
    else
      "Migration"

/-- `MigrationFileParser::validate_sql_syntax` from `migration/mod.rs`: the
file passes when it contains the substring `UP` or `up` or `-- UP`
(uppercased), or likewise for `DOWN`; otherwise it must contain one of the six
SQL keywords case-insensitively, else an error is returned. -/
def MigrationFileParser.validate_sql_syntax (content : String) :
    Except String Unit :=
  let upper : String := ⟨content.data.map Char.toUpper⟩
  let has_up := containsSub content "UP" || containsSub content "up"
    || containsSub upper "-- UP"
  let has_down := containsSub content "DOWN" || containsSub content "down"
    || containsSub upper "-- DOWN"
  if !has_up && !has_down then
    let contains_sql := ["CREATE", "ALTER", "DROP", "INSERT", "UPDATE", "DELETE"].any
      fun stmt => containsSub upper stmt
    if !contains_sql then
      .error "Migration file does not contain recognizable SQL statements"
    else
      .ok ()
  else
    .ok ()

/-- `MigrationFileParser::parse_migration_file` from `migration/mod.rs`:
extract the description, validate the content, and return the pair of
description and full content. -/
def MigrationFileParser.parse_migration_file (content : String) :
    Except String (String × String) :=
  let description := MigrationFileParser.extract_description content
  match MigrationFileParser.validate_sql_syntax content with
  | .error e => .error e
  | .ok _ => .ok (description, content)

/-! Auxiliary notions used by the theorems. -/

/-- Drop through the first occurrence of `needle` in `hay`, returning the
suffix after the match; `none` when there is no occurrence. -/
def dropThroughL (needle : List Char) : List Char → Option (List Char)
  | [] => if needle.isEmpty then some [] else none
  | c :: cs =>
    if startsWithL needle (c :: cs) then some ((c :: cs).drop needle.length)
    else dropThroughL needle cs

/-- Whether `hay` contains all the given substrings in order, at successive
non-overlapping positions. -/
def containsInOrderL (hay : List Char) : List (List Char) → Bool
  | [] => true
  | n :: ns =>
    match dropThroughL n hay with
    | some rest => containsInOrderL rest ns
    | none => false

/-- String version of `containsInOrderL`. -/
def containsInOrder (hay : String) (needles : List String) : Bool :=
  containsInOrderL hay.data (needles.map (·.data))

/-- The `users` table of scenarios S2/S6: integer auto-increment primary key
`id` and a non-nullable `name VARCHAR(255)` column. -/
def usersTable : Table :=
  { name := "users"
    columns :=
      [ { name := "id", column_type := .Integer, is_primary_key := true,
          is_nullable := false, has_default := false, default_value := none,
          is_auto_increment := true, comment := none },
        { name := "name", column_type := .String (some 255),
          is_primary_key := false, is_nullable := false, has_default := false,
          default_value := none, is_auto_increment := false, comment := none } ]
    primary_key_columns := ["id"]
    indexes := []
    foreign_keys := []
    comment := none }

/-- Cached policy of scenario S2: role `admin`, wildcard table, operations
`{SELECT, INSERT}`. -/
def adminCache : PolicyCache :=
  [("admin", ⟨[⟨"*", [Operation.Select, Operation.Insert]⟩]⟩)]

/-! Claim theorems. -/

/-- C1: for every SQL string and cache state, `execute` forwards the statement
to the driver only when `parse_sql_operation` identified a `(table, op)` pair
and the permission check on that pair allowed it, and the forwarded statement
is the input itself; when the shape is unrecognised, `execute` returns the
`Unable to parse` permission error and forwards nothing. -/
theorem execute_gated (cache : PolicyCache) (role sql : String) :
    (∀ s, s ∈ (Session.execute cache role sql).forwarded →
      s = sql ∧ ∃ t op, parse_sql_operation sql = some (t, op) ∧
        Session.check_permission cache role t op = .ok ())
    ∧ (parse_sql_operation sql = none →
      Session.execute cache role sql =
        ⟨[], false, .error (.Permission
          "Unable to parse SQL statement for permission check")⟩) := by
  constructor
  · intro s hs
    cases hp : parse_sql_operation sql with
    | none =>
      have : (Session.execute cache role sql).forwarded = [] := by
        simp [Session.execute, hp]
      simp [this] at hs
    | some pr =>
      obtain ⟨t, op⟩ := pr
      by_cases hc : check_table_access cache role t op
      · have hf : (Session.execute cache role sql).forwarded = [sql] := by
          simp [Session.execute, hp, Session.check_permission, hc]
        rw [hf] at hs
        simp at hs
        exact ⟨hs, t, op, rfl, by simp [Session.check_permission, hc]⟩
      · have hf : (Session.execute cache role sql).forwarded = [] := by
          simp [Session.execute, hp, Session.check_permission, hc]
        simp [hf] at hs
  · intro hp
    simp [Session.execute, hp]

/-- Witness for C1 at a concrete unparseable statement. -/
theorem execute_gated_witness :
    Session.execute [] "admin" "garbage" =
      ⟨[], false, .error (.Permission
        "Unable to parse SQL statement for permission check")⟩ :=
  (execute_gated [] "admin" "garbage").2 rfl

/-- C2 counterexample: `parse_sql_operation` uppercases the statement before
capturing, so `SELECT id FROM users` parses to the pair `(USERS, Select)`,
not to the table identifier `users` exactly as it appears in the SQL. -/
theorem parse_select_table_uppercased :
    parse_sql_operation "SELECT id FROM users" ≠ some ("users", Operation.Select)
    ∧ parse_sql_operation "SELECT id FROM users" = some ("USERS", Operation.Select) :=
  ⟨by decide, by decide⟩

/-- C2 as amended: under the cached wildcard policy for role `admin` with
operations `{SELECT, INSERT}`, `SELECT id FROM users` parses to the pair
`(USERS, Select)` (the table identifier uppercased by the parser), the
permission check allows it and the statement is forwarded, while
`DELETE FROM users` is rejected with a `Permission` error. -/
theorem admin_wildcard_select_allowed_delete_denied :
    parse_sql_operation "SELECT id FROM users" = some ("USERS", Operation.Select)
    ∧ (Session.execute adminCache "admin" "SELECT id FROM users").result = .ok ()
    ∧ (Session.execute adminCache "admin" "SELECT id FROM users").forwarded
        = ["SELECT id FROM users"]
    ∧ (Session.execute adminCache "admin" "DELETE FROM users").result
        = .error (.Permission
          "Role 'admin' does not have DELETE permission on table 'USERS'")
    ∧ (Session.execute adminCache "admin" "DELETE FROM users").forwarded = [] :=
  ⟨by decide, rfl, rfl, rfl, rfl⟩

/-- C4 counterexample: when the closure fails with error `boom`, the error
surfaced by `Session::transaction` is
`Transaction("Transaction failed: boom")`, not the closure's error verbatim. -/
theorem transaction_error_not_verbatim :
    (Session.transaction (α := Unit) ⟨none⟩ (fun _ => .error "boom")).2.2
      = .error (.Transaction ("Transaction failed: " ++ "boom"))
    ∧ ("Transaction failed: " ++ "boom") ≠ "boom" :=
  ⟨rfl, by decide⟩

/-- C4 as amended: for a session with no live transaction and a closure that
fails with error `e`, `transaction` begins a transaction, rolls it back,
leaves `is_in_transaction` false, and returns the closure's error wrapped as
`Transaction("Transaction failed: {e}")` (not verbatim). -/
theorem transaction_err_rolls_back {α : Type} (st : TxState)
    (f : Unit → Except String α) (e : String)
    (h0 : st.transaction = none) (hf : f () = .error e) :
    Session.transaction st f =
      (⟨none⟩, [TxEvent.begin, TxEvent.rollback],
        .error (.Transaction ("Transaction failed: " ++ e)))
    ∧ Session.is_in_transaction (Session.transaction st f).1 = false := by
  constructor
  · simp [Session.transaction, h0, hf]
  · simp [Session.transaction, h0, hf, Session.is_in_transaction]

/-- Witness for C4 at a concrete failing closure. -/
theorem transaction_err_rolls_back_witness :
    Session.transaction (α := Unit) ⟨none⟩ (fun _ => .error "boom") =
      (⟨none⟩, [TxEvent.begin, TxEvent.rollback],
        .error (.Transaction ("Transaction failed: " ++ "boom"))) :=
  (transaction_err_rolls_back ⟨none⟩ (fun _ => .error "boom") "boom" rfl rfl).1

/-- C5: a session holds at most one transaction: `begin_transaction` with one
live returns the `Transaction already in progress` error and leaves the state
unchanged, while `commit`/`rollback` with none return the respective
`No active transaction` errors and leave the state unchanged. -/
theorem single_transaction_discipline :
    (∀ st : TxState, st.transaction.isSome = true →
      Session.begin_transaction st =
        (st, [], .error (.Transaction "Transaction already in progress")))
    ∧ (∀ st : TxState, st.transaction = none →
      Session.commit st =
        (st, [], .error (.Transaction "No active transaction to commit")))
    ∧ (∀ st : TxState, st.transaction = none →
      Session.rollback st =
        (st, [], .error (.Transaction "No active transaction to rollback"))) := by
  refine ⟨fun st h => ?_, fun st h => ?_, fun st h => ?_⟩
  · simp [Session.begin_transaction, h]
  · simp [Session.commit, h]
  · simp [Session.rollback, h]

/-- Witness for C5 at concrete states. -/
theorem single_transaction_discipline_witness :
    Session.begin_transaction ⟨some ()⟩ =
      (⟨some ()⟩, [], .error (.Transaction "Transaction already in progress"))
    ∧ Session.commit ⟨none⟩ =
      (⟨none⟩, [], .error (.Transaction "No active transaction to commit"))
    ∧ Session.rollback ⟨none⟩ =
      (⟨none⟩, [], .error (.Transaction "No active transaction to rollback")) :=
  ⟨single_transaction_discipline.1 ⟨some ()⟩ rfl,
   single_transaction_discipline.2.1 ⟨none⟩ rfl,
   single_transaction_discipline.2.2 ⟨none⟩ rfl⟩

/-- C6: scenario S1: `auto_correct` on
`{max: 5, min: 10, idle: 10, acquire: 0, url: mysql://localhost/db}` yields
`max=5, min=5, idle_timeout=30, acquire_timeout=5000` and appends
`?connect_timeout=10` to the URL. -/
theorem auto_correct_scenario_s1 :
    ConfigCorrector.auto_correct
      ⟨"mysql://localhost/db", 5, 10, 10, 0, none⟩ =
      ⟨"mysql://localhost/db?connect_timeout=10", 5, 5, 30, 5000, none⟩ := by
  decide

/-- C7: for every input configuration, the corrected one satisfies
`1 ≤ min ≤ max`, `1000 ≤ acquire_timeout ≤ 60000` and
`30 ≤ idle_timeout ≤ 3600`. -/
theorem auto_correct_bounds (config : DbConfig) :
    1 ≤ (ConfigCorrector.auto_correct config).min_connections
    ∧ (ConfigCorrector.auto_correct config).min_connections
        ≤ (ConfigCorrector.auto_correct config).max_connections
    ∧ 1000 ≤ (ConfigCorrector.auto_correct config).acquire_timeout
    ∧ (ConfigCorrector.auto_correct config).acquire_timeout ≤ 60000
    ∧ 30 ≤ (ConfigCorrector.auto_correct config).idle_timeout
    ∧ (ConfigCorrector.auto_correct config).idle_timeout ≤ 3600 := by
  unfold ConfigCorrector.auto_correct
  dsimp only
  split_ifs <;> simp_all <;> omega

/-- C9: scenario S6: the Postgres rendering of the `users` table contains, in
order, `CREATE TABLE users`, `id INTEGER`, `name VARCHAR(255)`, `NOT NULL`
and `PRIMARY KEY (id)`, and emits no auto-increment keyword. -/
theorem create_table_sql_postgres_users :
    (SqlGenerator.mk DatabaseType.Postgres).generate_create_table_sql usersTable
      = "CREATE TABLE users (\n    id INTEGER NOT NULL,\n    name VARCHAR(255) NOT NULL,\n    PRIMARY KEY (id)\n);"
    ∧ containsInOrder
        ((SqlGenerator.mk DatabaseType.Postgres).generate_create_table_sql usersTable)
        ["CREATE TABLE users", "id INTEGER", "name VARCHAR(255)", "NOT NULL",
          "PRIMARY KEY (id)"] = true
    ∧ containsSub
        ((SqlGenerator.mk DatabaseType.Postgres).generate_create_table_sql usersTable)
        "AUTO_INCREMENT" = false
    ∧ containsSub
        ((SqlGenerator.mk DatabaseType.Postgres).generate_create_table_sql usersTable)
        "AUTOINCREMENT" = false :=
  ⟨rfl, by decide, by decide, by decide⟩

/-- C3: when the permissions path is absent, or the policy file fails to read,
or it fails to parse, the loaded permission config is the default one with an
empty role map; preloading it caches nothing, so every `check_table_access`
denies and every gated `execute` is denied with a `Permission` error without
forwarding anything to the driver. -/
theorem default_permission_config_denies :
    (∀ rf pf, DbPool.load_permission_config none rf pf = PermissionConfig.default)
    ∧ (∀ path rf pf, rf path = none →
        DbPool.load_permission_config (some path) rf pf = PermissionConfig.default)
    ∧ (∀ path rf pf content, rf path = some content → pf content = none →
        DbPool.load_permission_config (some path) rf pf = PermissionConfig.default)
    ∧ PermissionConfig.default.roles = []
    ∧ (∀ role table op,
        check_table_access (DbPool.preloadCache PermissionConfig.default)
          role table op = false)
    ∧ (∀ role sql,
        (Session.execute (DbPool.preloadCache PermissionConfig.default)
          role sql).forwarded = []
        ∧ ∃ msg,
          (Session.execute (DbPool.preloadCache PermissionConfig.default)
            role sql).result = .error (.Permission msg)) := by
  refine ⟨fun rf pf => rfl, fun path rf pf h => ?_, fun path rf pf content h1 h2 => ?_,
    rfl, fun role table op => rfl, fun role sql => ?_⟩
  · simp [DbPool.load_permission_config, h]
  · simp [DbPool.load_permission_config, h1, h2]
  · cases hp : parse_sql_operation sql with
    | none =>
      exact ⟨by simp [Session.execute, hp],
        "Unable to parse SQL statement for permission check",
        by simp [Session.execute, hp]⟩
    | some pr =>
      obtain ⟨t, op⟩ := pr
      have hc : check_table_access (DbPool.preloadCache PermissionConfig.default)
          role t op = false := rfl
      refine ⟨by simp [Session.execute, hp, Session.check_permission, hc], ?_⟩
      exact ⟨"Role '" ++ role ++ "' does not have " ++ op.toDisplay
          ++ " permission on table '" ++ t ++ "'",
        by simp [Session.execute, hp, Session.check_permission, hc]⟩

/-- Witness for C3 at a concrete role, table, operation and statement. -/
theorem default_permission_config_denies_witness :
    DbPool.load_permission_config (some "perm.yaml") (fun _ => none) (fun _ => none)
      = PermissionConfig.default
    ∧ check_table_access (DbPool.preloadCache PermissionConfig.default)
        "admin" "users" Operation.Select = false
    ∧ (Session.execute (DbPool.preloadCache PermissionConfig.default)
        "admin" "SELECT id FROM users").forwarded = [] :=
  ⟨default_permission_config_denies.2.1 "perm.yaml" (fun _ => none) (fun _ => none) rfl,
   default_permission_config_denies.2.2.2.2.1 "admin" "users" Operation.Select,
   (default_permission_config_denies.2.2.2.2.2 "admin" "SELECT id FROM users").1⟩

/-- Well-named schema: table names are pairwise distinct and, within each
table, column names are pairwise distinct (index and foreign-key names are
matched purely by presence, so their duplication cannot produce changes). -/
def Schema.wellNamed (s : Schema) : Prop :=
  (s.tables.map Table.name).Nodup ∧ ∀ t ∈ s.tables, (t.columns.map Column.name).Nodup

/-- On a list whose names are pairwise distinct, `find?` by the name of a
member returns that member. -/
theorem find?_name_self {α : Type} (nm : α → String) {l : List α} {t : α}
    (hnd : (l.map nm).Nodup) (ht : t ∈ l) :
    l.find? (fun u => decide (nm u = nm t)) = some t := by
  induction l with
  | nil => cases ht
  | cons u rest ih =>
    rcases List.mem_cons.mp ht with rfl | hmem
    · exact List.find?_cons_of_pos _ (by simp)
    · have hnmem : nm u ∉ rest.map nm := (List.nodup_cons.mp hnd).1
      have hne : ¬ nm u = nm t := fun he => hnmem (he ▸ List.mem_map_of_mem nm hmem)
      rw [List.find?_cons_of_neg _ (by simp [hne])]
      exact ih (List.nodup_cons.mp hnd).2 hmem

/-- Filtering a list down to elements whose name is absent from the same list
leaves nothing. -/
theorem filter_not_any_name_self {α : Type} (nm : α → String) (l : List α) :
    l.filter (fun c => !(l.any fun oc => decide (nm oc = nm c))) = [] := by
  rw [List.filter_eq_nil_iff]
  intro c hc
  have hany : (l.any fun oc => decide (nm oc = nm c)) = true :=
    List.any_eq_true.mpr ⟨c, hc, by simp⟩
  simp [hany]

/-- Comparing a table against itself yields no column changes when its column
names are distinct. -/
theorem detect_column_changes_self (t : Table)
    (h : (t.columns.map Column.name).Nodup) :
    SchemaDiffer.detect_column_changes t t = [] := by
  unfold SchemaDiffer.detect_column_changes
  rw [List.flatMap_eq_nil_iff]
  intro nc hnc
  rw [find?_name_self Column.name h hnc]
  simp

/-- Comparing a table against itself yields no alteration entry when its
column names are distinct. -/
theorem alterFor_self (s : Schema) (hnd : (s.tables.map Table.name).Nodup)
    (hcols : ∀ t ∈ s.tables, (t.columns.map Column.name).Nodup)
    (t : Table) (ht : t ∈ s.tables) :
    SchemaDiffer.alterFor s t = none := by
  unfold SchemaDiffer.alterFor
  have hget : s.get_table t.name = some t := find?_name_self Table.name hnd ht
  rw [hget]
  have h1 := detect_column_changes_self t (hcols t ht)
  have h2 : SchemaDiffer.detect_added_columns t t = [] :=
    filter_not_any_name_self Column.name t.columns
  have h3 : SchemaDiffer.detect_removed_columns t t = [] := by
    unfold SchemaDiffer.detect_removed_columns
    rw [filter_not_any_name_self Column.name t.columns]
    rfl
  have h4 : SchemaDiffer.detect_added_indexes t t = [] :=
    filter_not_any_name_self Index.name t.indexes
  have h5 : SchemaDiffer.detect_removed_indexes t t = [] := by
    unfold SchemaDiffer.detect_removed_indexes
    rw [filter_not_any_name_self Index.name t.indexes]
    rfl
  have h6 : SchemaDiffer.detect_added_foreign_keys t t = [] :=
    filter_not_any_name_self ForeignKey.name t.foreign_keys
  have h7 : SchemaDiffer.detect_removed_foreign_keys t t = [] := by
    unfold SchemaDiffer.detect_removed_foreign_keys
    rw [filter_not_any_name_self ForeignKey.name t.foreign_keys]
    rfl
  simp [h1, h2, h3, h4, h5, h6, h7]

/-- Table of the C8 counterexample: two columns that share the name `a` but
differ in type. -/
def dupColsTable : Table :=
  { name := "users"
    columns :=
      [ { name := "a", column_type := .Integer, is_primary_key := false,
          is_nullable := false, has_default := false, default_value := none,
          is_auto_increment := false, comment := none },
        { name := "a", column_type := .Text, is_primary_key := false,
          is_nullable := false, has_default := false, default_value := none,
          is_auto_increment := false, comment := none } ]
    primary_key_columns := []
    indexes := []
    foreign_keys := []
    comment := none }

/-- Schema of the C8 counterexample. -/
def dupColsSchema : Schema := ⟨DatabaseType.Postgres, [dupColsTable]⟩

/-- C8 counterexample: `diff(S, S)` is not empty for the schema whose `users`
table carries two columns named `a` of different types (the name-based column
matching pairs the second column with the first and emits a spurious
`TypeChanged`), and `diff(∅, ∅)` is the empty migration list rather than a
single migration with one `CreateTable` per table. -/
theorem diff_self_dup_columns_not_empty :
    SchemaDiffer.diff dupColsSchema dupColsSchema ≠ []
    ∧ SchemaDiffer.diff ⟨DatabaseType.Postgres, []⟩ ⟨DatabaseType.Postgres, []⟩ = [] :=
  ⟨by decide, rfl⟩

/-- C8 as amended: for every schema with pairwise-distinct table names and
pairwise-distinct column names within each table, `diff(S, S)` is the empty
migration list, and `diff` from the empty schema to `S` is empty when `S` has
no tables and otherwise one migration whose table changes are exactly one
`CreateTable` per table of `S`, in `S`'s table order. -/
theorem diff_roundtrip (s : Schema) (h : s.wellNamed) :
    SchemaDiffer.diff s s = []
    ∧ SchemaDiffer.diff ⟨s.database_type, []⟩ s
      = (if s.tables.isEmpty then []
        else [{ Migration.new 1 "Schema changes" with
                  table_changes := s.tables.map TableChange.CreateTable }]) := by
  obtain ⟨hnd, hcols⟩ := h
  constructor
  · have hfil : s.tables.filter (fun t => !(s.has_table t.name)) = [] := by
      rw [List.filter_eq_nil_iff]
      intro t ht
      have hht : s.has_table t.name = true := by
        simp only [Schema.has_table, List.any_eq_true]
        exact ⟨t, ht, by simp⟩
      simp [hht]
    have halt : s.tables.filterMap (SchemaDiffer.alterFor s) = [] := by
      rw [List.filterMap_eq_nil_iff]
      exact fun t ht => alterFor_self s hnd hcols t ht
    unfold SchemaDiffer.diff
    simp [hfil, halt]
  · have hcr : s.tables.filter
        (fun t => !((⟨s.database_type, []⟩ : Schema).has_table t.name)) = s.tables := by
      rw [List.filter_eq_self]
      intro t _
      simp [Schema.has_table]
    have hal : s.tables.filterMap (SchemaDiffer.alterFor ⟨s.database_type, []⟩) = [] := by
      rw [List.filterMap_eq_nil_iff]
      intro t _
      rfl
    unfold SchemaDiffer.diff
    simp only [hcr, hal]
    by_cases he : s.tables = []
    · simp [he]
    · have h1 : (s.tables.map TableChange.CreateTable) ≠ [] := by
        simp [List.map_eq_nil_iff, he]
      simp [he, h1, List.isEmpty_iff]

/-- Witness for C8 at the single-table `users` schema. -/
theorem diff_roundtrip_witness :
    SchemaDiffer.diff ⟨DatabaseType.Postgres, [usersTable]⟩
        ⟨DatabaseType.Postgres, [usersTable]⟩ = []
    ∧ SchemaDiffer.diff ⟨DatabaseType.Postgres, []⟩
        ⟨DatabaseType.Postgres, [usersTable]⟩
      = [{ Migration.new 1 "Schema changes" with
            table_changes := [TableChange.CreateTable usersTable] }] := by
  have h := diff_roundtrip ⟨DatabaseType.Postgres, [usersTable]⟩
    ⟨by decide, by intro t ht; fin_cases ht; decide⟩
  exact ⟨h.1, by simpa using h.2⟩

/-- Failing input of C10. -/
def c10input : String := "-- Migration: add users\nsoup"

/-- C10: evaluation at the failing input `-- Migration: add users\nsoup`:
the parser keeps the colon of the marker in the description (the code slices
the line at byte 12 although `-- Migration:` is 13 bytes long) and accepts
the file because `soup` contains the substring `up` (the code looks for any
`UP`/`up` occurrence instead of an explicit `-- UP` marker), although the
content has no `-- UP`/`-- DOWN` marker and none of the six SQL keywords. -/
theorem parse_migration_file_keeps_colon :
    MigrationFileParser.parse_migration_file c10input
      = .ok (": add users", c10input)
    ∧ MigrationFileParser.extract_description c10input = ": add users"
    ∧ containsSub (⟨c10input.data.map Char.toUpper⟩ : String) "-- UP" = false
    ∧ containsSub (⟨c10input.data.map Char.toUpper⟩ : String) "-- DOWN" = false
    ∧ (["CREATE", "ALTER", "DROP", "INSERT", "UPDATE", "DELETE"].all fun k =>
        !containsSub (⟨c10input.data.map Char.toUpper⟩ : String) k) = true :=
  ⟨rfl, rfl, by decide, by decide, by decide⟩

end DbNexus
